import Mathlib

/-!
Verification of the bb-stream sidecar supervisor
(`src/desktop/src-tauri/src/lib.rs`).

The Rust source is shallowly embedded: pure fragments become Lean
functions, the stateful supervisory loops become explicit state passing
or a small-step machine over an explicit configuration type, and the
nondeterministic environment (OS port availability, spawn outcomes,
health-probe results, process events, timing of the close handler)
is passed in as explicit inputs.
-/

/-- Backend status values, mirroring `enum BackendStatus` in the source. -/
inductive BackendStatus where
  | Starting
  | Healthy
  | Unhealthy
  | Crashed (error : String)
  | Restarting
  deriving Repr, DecidableEq, BEq

/-- Observable events of the supervisor: statuses emitted through
`emit_backend_status`, process spawns and kills (with the handle id and,
for spawns, the previous content of the handle slot), sleeps, the
shutdown store of the close handler, and the outcome of each
`try_send` on the capacity-1 restart channel. -/
inductive SupEv where
  | published (s : BackendStatus)
  | spawned (prev : Option Nat) (h : Nat)
  | killed (h : Nat)
  | waited (ms : Nat)
  | shutdownSet
  | sendAccepted
  | sendDropped
  deriving Repr, DecidableEq, BEq

/-- State of one health-checker loop: the local `consecutive_failures`
counter and the shared `is_healthy` atomic as seen by that loop. -/
structure HcState where
  consecutive_failures : Nat
  is_healthy : Bool
  deriving Repr, DecidableEq

/-- One iteration body of the health-check loop in `spawn_health_checker`
(lines 165-182 of the source), given the outcome of `check_health`
(`ok = true` for a 2xx response). Returns the successor state and the
status published by this iteration, if any.

Source: on success, `consecutive_failures = 0` and
`if !state.is_healthy.swap(true) { emit Healthy }`; on failure the
counter is incremented and, whenever it is `>= 3`, `is_healthy` is
stored `false` and `Unhealthy` is emitted (with no transition check). -/
def hcCheckStep (s : HcState) (ok : Bool) : HcState × Option BackendStatus :=
  if ok then
    ({ consecutive_failures := 0, is_healthy := true },
     if s.is_healthy then none else some .Healthy)
  else
    let f := s.consecutive_failures + 1
    if f ≥ 3 then
      ({ consecutive_failures := f, is_healthy := false }, some .Unhealthy)
    else
      ({ consecutive_failures := f, is_healthy := s.is_healthy }, none)

/-- The health-checker loop run over a list of probe outcomes, starting
from a given state, collecting the published statuses in order. -/
def hcRun (s : HcState) (ins : List Bool) : HcState × List BackendStatus :=
  ins.foldl
    (fun p i =>
      let r := hcCheckStep p.1 i
      (r.1, p.2 ++ r.2.toList))
    (s, [])

/-- Initial health-checker state: counter 0, `is_healthy` initially
`false` (`AtomicBool::new(false)` in `AppState::new`). -/
def hcInit : HcState := { consecutive_failures := 0, is_healthy := false }

/-- Auxiliary invariant of the health-check loop: starting from a state
and an already-published list that agree (the flag is set exactly when
the last published status is `Healthy`), the agreement is preserved by
running any further probe outcomes. -/
theorem hcRun_healthy_iff_last (ins : List Bool) :
    ∀ (s : HcState) (acc : List BackendStatus),
      (s.is_healthy = true ↔ acc.getLast? = some BackendStatus.Healthy) →
      ((ins.foldl (fun p i => let r := hcCheckStep p.1 i; (r.1, p.2 ++ r.2.toList)) (s, acc)).1.is_healthy = true ↔
        (ins.foldl (fun p i => let r := hcCheckStep p.1 i; (r.1, p.2 ++ r.2.toList)) (s, acc)).2.getLast? = some BackendStatus.Healthy) := by
  induction ins with
  | nil => intro s acc h; simpa using h
  | cons i is ih =>
    intro s acc h
    simp only [List.foldl_cons]
    apply ih
    cases i with
    | true =>
      simp only [hcCheckStep, if_pos rfl]
      by_cases hs : s.is_healthy = true
      · simp [hs, h.mp hs]
      · have : s.is_healthy = false := by simpa using hs
        simp [this, List.getLast?_concat]
    | false =>
      simp only [hcCheckStep]
      by_cases hf : s.consecutive_failures + 1 ≥ 3
      · simp [hf, List.getLast?_concat]
      · simpa [hf] using h

/-- C1 counterexample: running the health-check loop from its initial
state on four consecutive failures publishes `Unhealthy` twice — once
when the counter reaches the threshold of 3 and again on the fourth
consecutive failure — refuting the claim that `Unhealthy` is published
only on the transition into the unhealthy state and that a fourth
consecutive failure publishes nothing. -/
theorem c1_counterexample :
    (hcRun hcInit [false, false, false, false]).2 =
      [BackendStatus.Unhealthy, BackendStatus.Unhealthy] ∧
    (hcRun hcInit [false, false, false, false]).2.count BackendStatus.Unhealthy = 2 := by
  decide

/-- C1 (amended): a failed health check publishes `Unhealthy` exactly
when the incremented consecutive-failure counter is at least 3 — that
is, on the third and on every later consecutive failure, not only on
the transition into the unhealthy state. -/
theorem c1_unhealthy_published_iff_threshold (s : HcState) :
    (hcCheckStep s false).2 = some BackendStatus.Unhealthy ↔
      s.consecutive_failures + 1 ≥ 3 := by
  by_cases hf : s.consecutive_failures + 1 ≥ 3
  · simp [hcCheckStep, hf]
  · simp [hcCheckStep, hf]

/-- C2: in any run of the health-check loop from its initial state, a
successful (2xx) probe resets the consecutive-failure counter to zero,
sets the health flag, and publishes `Healthy` exactly when the last
status published by the loop so far was not `Healthy` (in particular it
publishes on the first success after any non-healthy publication or
before any publication, and publishes nothing while already healthy). -/
theorem c2_success_resets_and_publishes_iff (ins : List Bool) :
    hcCheckStep (hcRun hcInit ins).1 true =
      ({ consecutive_failures := 0, is_healthy := true },
       if (hcRun hcInit ins).2.getLast? = some BackendStatus.Healthy then none
       else some BackendStatus.Healthy) := by
  have h := hcRun_healthy_iff_last ins hcInit [] (by simp [hcInit])
  simp only [hcRun]
  simp only [hcRun] at h
  by_cases hs : (ins.foldl (fun p i => let r := hcCheckStep p.1 i; (r.1, p.2 ++ r.2.toList)) (hcInit, [])).1.is_healthy = true
  · rw [hcCheckStep, if_pos rfl, if_pos hs, if_pos (h.mp hs)]
  · have hl : ¬ ((ins.foldl (fun p i => let r := hcCheckStep p.1 i; (r.1, p.2 ++ r.2.toList)) (hcInit, [])).2.getLast? = some BackendStatus.Healthy) :=
      fun hc => hs (h.mpr hc)
    have hs' : (ins.foldl (fun p i => let r := hcCheckStep p.1 i; (r.1, p.2 ++ r.2.toList)) (hcInit, [])).1.is_healthy = false := by
      simpa using hs
    rw [hcCheckStep, if_pos rfl, hs', if_neg hl]
    simp

/-- Shared supervisor state, mirroring `struct AppState` in the source:
the mutex-guarded sidecar handle slot (process handles are modelled as
natural numbers), the `AtomicU16` port, the `AtomicBool` health flag and
the `AtomicBool` shutdown flag. The `restart_tx` sender is modelled
separately as the capacity-1 channel of the supervisor machine. -/
structure AppState where
  sidecar : Option Nat
  port : Nat
  is_healthy : Bool
  shutdown : Bool
  deriving Repr, DecidableEq

/-- Mirrors `AppState::new`: empty handle slot, port 0, not healthy,
not shutting down. -/
def AppState_new : AppState :=
  { sidecar := none, port := 0, is_healthy := false, shutdown := false }

/-- Mirrors the `get_api_port` command: load of the atomic port field. -/
def get_api_port (state : AppState) : Nat := state.port

/-- Mirrors `find_available_port`. The OS-level availability check
(`portpicker::is_free`) is passed in as the predicate `is_free`, and the
result of `portpicker::pick_unused_port()` as `pick_unused_port`; the
function prefers the fixed default port 8765 when it is free. -/
def find_available_port (is_free : Nat → Bool) (pick_unused_port : Option Nat) : Option Nat :=
  if is_free 8765 then some 8765 else pick_unused_port

/-- Environment of one invocation of the launch sequence: the result of
`find_available_port`, the result of creating the sidecar command
(`shell.sidecar("bb-stream")`), and the result of `.spawn()` (on
success, the new process handle). -/
structure LaunchEnv where
  alloc : Option Nat
  cmd : Except String Unit
  spawn : Except String Nat
  deriving Repr

/-- Mirrors `start_sidecar_sync` (lines 65-102 of the source): allocate
a port or fail with "No available ports"; store the port into shared
state; emit `Starting`; create the sidecar command (failure is reported
with the "Failed to create sidecar command" prefix); spawn (failure is
reported with the "Failed to spawn sidecar" prefix); finally store the
child handle in the slot. Returns the updated state, the emitted
events, and the result. -/
def start_sidecar_sync (state : AppState) (env : LaunchEnv) :
    AppState × List SupEv × Except String Unit :=
  match env.alloc with
  | none => (state, [], .error "No available ports")
  | some port =>
    let st1 : AppState := { state with port := port }
    let evs := [SupEv.published .Starting]
    match env.cmd with
    | .error e => (st1, evs, .error ("Failed to create sidecar command: " ++ e))
    | .ok _ =>
      match env.spawn with
      | .error e => (st1, evs, .error ("Failed to spawn sidecar: " ++ e))
      | .ok child =>
          ({ st1 with sidecar := some child },
           evs ++ [SupEv.spawned st1.sidecar child], .ok ())

/-- Mirrors `kill_sidecar`: take the handle out of the slot and kill it;
a no-op when the slot is empty. -/
def kill_sidecar (state : AppState) : AppState × List SupEv :=
  match state.sidecar with
  | some child => ({ state with sidecar := none }, [SupEv.killed child])
  | none => (state, [])

/-- A sequence of launch attempts folded over the shared state (the
state effect of repeated `start_sidecar_sync` calls). -/
def run_launches (state : AppState) (attempts : List LaunchEnv) : AppState :=
  attempts.foldl (fun st env => (start_sidecar_sync st env).1) state

/-- Helper: a launch attempt whose allocation fails leaves the shared
state unchanged. -/
theorem start_sidecar_sync_alloc_none (state : AppState) (env : LaunchEnv)
    (h : env.alloc = none) : (start_sidecar_sync state env).1 = state := by
  simp [start_sidecar_sync, h]

/-- Helper: a launch attempt whose allocation returns `p` stores `p`
into the port field, whatever the later spawn outcome. -/
theorem start_sidecar_sync_alloc_some (state : AppState) (env : LaunchEnv)
    (p : Nat) (h : env.alloc = some p) :
    (start_sidecar_sync state env).1.port = p := by
  cases hc : env.cmd with
  | error e => simp [start_sidecar_sync, h, hc]
  | ok u =>
    cases hs : env.spawn with
    | error e => simp [start_sidecar_sync, h, hc, hs]
    | ok child => simp [start_sidecar_sync, h, hc, hs]

/-- Helper: launches whose allocations all fail leave the state fixed. -/
theorem run_launches_all_none (attempts : List LaunchEnv) :
    ∀ state : AppState, (∀ e ∈ attempts, e.alloc = none) →
      run_launches state attempts = state := by
  induction attempts with
  | nil => intro state _; rfl
  | cons a l ih =>
    intro state h
    have ha : a.alloc = none := h a (by simp)
    have : run_launches state (a :: l) = run_launches (start_sidecar_sync state a).1 l := rfl
    rw [this, start_sidecar_sync_alloc_none state a ha]
    exact ih state (fun e he => h e (by simp [he]))

/-- Helper: the port after any launch attempt is either the old port or
an allocated value. -/
theorem start_sidecar_sync_port_cases (state : AppState) (env : LaunchEnv) :
    (start_sidecar_sync state env).1.port = state.port ∨
      env.alloc = some ((start_sidecar_sync state env).1.port) := by
  cases ha : env.alloc with
  | none => exact Or.inl (by rw [start_sidecar_sync_alloc_none state env ha])
  | some p => exact Or.inr (by rw [start_sidecar_sync_alloc_some state env p ha])

/-- Helper: launches whose allocated values are all below 65536 keep the
port below 65536 (the `u16` range), starting from such a port. -/
theorem run_launches_port_bound (attempts : List LaunchEnv) :
    ∀ state : AppState, state.port < 65536 →
      (∀ e ∈ attempts, ∀ q, e.alloc = some q → q < 65536) →
      (run_launches state attempts).port < 65536 := by
  induction attempts with
  | nil => intro state hp _; exact hp
  | cons a l ih =>
    intro state hp h
    have : run_launches state (a :: l) = run_launches (start_sidecar_sync state a).1 l := rfl
    rw [this]
    refine ih _ ?_ (fun e he q hq => h e (by simp [he]) q hq)
    rcases start_sidecar_sync_port_cases state a with hc | hc
    · rw [hc]; exact hp
    · exact h a (by simp) _ hc

/-- C9: `get_api_port` reads the current allocated port: it returns 0 on
the fresh state and after any sequence of launch attempts in which no
port allocation succeeded; as soon as an attempt allocates port `p`
(even if the subsequent spawn fails) it returns `p`; and it stays in the
`uint16` range whenever every allocated value does. -/
theorem c9_get_api_port (attempts : List LaunchEnv) (env : LaunchEnv) (p : Nat)
    (hnone : ∀ e ∈ attempts, e.alloc = none)
    (hp : env.alloc = some p)
    (hrange : ∀ e ∈ attempts, ∀ q, e.alloc = some q → q < 65536) :
    get_api_port AppState_new = 0 ∧
    get_api_port (run_launches AppState_new attempts) = 0 ∧
    get_api_port (run_launches AppState_new (attempts ++ [env])) = p ∧
    get_api_port (run_launches AppState_new attempts) < 65536 := by
  refine ⟨rfl, ?_, ?_, ?_⟩
  · rw [get_api_port, run_launches_all_none attempts AppState_new hnone]; rfl
  · have : run_launches AppState_new (attempts ++ [env]) =
        (start_sidecar_sync (run_launches AppState_new attempts) env).1 := by
      simp [run_launches, List.foldl_append]
    rw [get_api_port, this, start_sidecar_sync_alloc_some _ env p hp]
  · exact run_launches_port_bound attempts AppState_new (by decide) hrange

/-- C9 witness: two failed-allocation attempts keep the port at 0, and a
later attempt that allocates port 9000 (whose spawn succeeds) makes
`get_api_port` return 9000. -/
theorem c9_get_api_port_witness :
    get_api_port AppState_new = 0 ∧
    get_api_port (run_launches AppState_new
      [⟨none, .ok (), .error "nope"⟩, ⟨none, .ok (), .ok 5⟩]) = 0 ∧
    get_api_port (run_launches AppState_new
      ([⟨none, .ok (), .error "nope"⟩, ⟨none, .ok (), .ok 5⟩] ++
        [⟨some 9000, .ok (), .ok 7⟩])) = 9000 ∧
    get_api_port (run_launches AppState_new
      [⟨none, .ok (), .error "nope"⟩, ⟨none, .ok (), .ok 5⟩]) < 65536 :=
  c9_get_api_port
    [⟨none, .ok (), .error "nope"⟩, ⟨none, .ok (), .ok 5⟩]
    ⟨some 9000, .ok (), .ok 7⟩ 9000
    (by intro e he; fin_cases he <;> rfl)
    rfl
    (by intro e he q hq; fin_cases he <;> simp_all)

/-- C7: under the contract of `portpicker::pick_unused_port` (any port
it returns is currently free), `find_available_port` returns the fixed
default port 8765 when it is free; when 8765 is occupied any port it
returns is a different, currently-free port; and when it finds no port
the launch attempt fails with the "No available ports" error. -/
theorem c7_port_allocation (is_free : Nat → Bool) (pick : Option Nat)
    (hpick : ∀ p, pick = some p → is_free p = true) :
    (is_free 8765 = true → find_available_port is_free pick = some 8765) ∧
    (is_free 8765 = false → ∀ p, find_available_port is_free pick = some p →
        p ≠ 8765 ∧ is_free p = true) ∧
    (∀ (state : AppState) (c : Except String Unit) (sp : Except String Nat),
        find_available_port is_free pick = none →
        (start_sidecar_sync state
            { alloc := find_available_port is_free pick, cmd := c, spawn := sp }).2.2 =
          Except.error "No available ports") := by
  refine ⟨?_, ?_, ?_⟩
  · intro h; simp [find_available_port, h]
  · intro h p hp
    rw [find_available_port, h] at hp
    simp only [Bool.false_eq_true, if_false] at hp
    have hfree := hpick p hp
    refine ⟨?_, hfree⟩
    intro hq
    rw [hq] at hfree
    rw [hfree] at h
    exact absurd h (by simp)
  · intro state c sp h
    rw [h]
    rfl

/-- C7 witness: with 8765 occupied, only port 9000 free, and the picker
returning 9000, the allocated port is free and differs from 8765; a
second instantiation where no port is free fails the launch with the
"No available ports" error. -/
theorem c7_port_allocation_witness :
    ((9000 : Nat) ≠ 8765 ∧ decide ((9000 : Nat) = 9000) = true) ∧
    (start_sidecar_sync AppState_new
        { alloc := find_available_port (fun _ => false) none,
          cmd := .ok (), spawn := .ok 1 }).2.2 =
      Except.error "No available ports" :=
  ⟨(c7_port_allocation (fun n => decide (n = 9000)) (some 9000)
      (fun p hp => by injection hp with h1; rw [← h1]; decide)).2.1
      (by decide) 9000 (by decide),
   (c7_port_allocation (fun _ => false) none
      (fun p hp => by cases hp)).2.2 AppState_new (.ok ()) (.ok 1) rfl⟩

/-- C10: the launch sequence stores the allocated port into shared state
before attempting the spawn, so when sidecar-command creation or the
spawn fails the launch returns an error while the port field keeps the
newly allocated value and the (previously empty) handle slot stays
empty: `get_api_port` then reports a port with no live backend bound. -/
theorem c10_port_retained_on_spawn_failure (state : AppState) (env : LaunchEnv)
    (p : Nat) (halloc : env.alloc = some p) (hslot : state.sidecar = none)
    (hfail : (start_sidecar_sync state env).2.2 ≠ Except.ok ()) :
    (∃ msg, (start_sidecar_sync state env).2.2 = Except.error msg) ∧
    get_api_port (start_sidecar_sync state env).1 = p ∧
    (start_sidecar_sync state env).1.sidecar = none := by
  cases hc : env.cmd with
  | error e =>
    refine ⟨⟨"Failed to create sidecar command: " ++ e, ?_⟩, ?_, ?_⟩ <;>
      simp [start_sidecar_sync, get_api_port, halloc, hc, hslot]
  | ok u =>
    cases hs : env.spawn with
    | error e =>
      refine ⟨⟨"Failed to spawn sidecar: " ++ e, ?_⟩, ?_, ?_⟩ <;>
        simp [start_sidecar_sync, get_api_port, halloc, hc, hs, hslot]
    | ok child =>
      exact absurd (by simp [start_sidecar_sync, halloc, hc, hs]) hfail

/-- C10 witness: a launch on the fresh state that allocates port 9100
and then fails to spawn leaves `get_api_port` reporting 9100 with the
handle slot still empty. -/
theorem c10_port_retained_witness :
    (∃ msg, (start_sidecar_sync AppState_new
        ⟨some 9100, .ok (), .error "exec format error"⟩).2.2 = Except.error msg) ∧
    get_api_port (start_sidecar_sync AppState_new
        ⟨some 9100, .ok (), .error "exec format error"⟩).1 = 9100 ∧
    (start_sidecar_sync AppState_new
        ⟨some 9100, .ok (), .error "exec format error"⟩).1.sidecar = none :=
  c10_port_retained_on_spawn_failure AppState_new
    ⟨some 9100, .ok (), .error "exec format error"⟩ 9100 rfl rfl
    (by intro h; simp [start_sidecar_sync] at h)

/-- Exit payload carried by a `Terminated` event (the `code`/`signal`
pair of `tauri_plugin_shell`'s terminated status). -/
structure TerminatedPayload where
  code : Option Int
  signal : Option Int
  deriving Repr, DecidableEq

/-- Process lifecycle events consumed by the output handler, mirroring
`CommandEvent`; `Other` stands for the wildcard arm of the source's
match. Stdout and stderr lines are byte lists. -/
inductive CommandEvent where
  | Stdout (line : List Nat)
  | Stderr (line : List Nat)
  | Error (msg : String)
  | Terminated (status : TerminatedPayload)
  | Other
  deriving Repr, DecidableEq

/-- The crash description built at lib.rs:130,
`format!("Process exited with status: {:?}", status)`. -/
def exitDescription (status : TerminatedPayload) : String :=
  "Process exited with status: " ++ toString (repr status)

/-- Actions the output handler performs, in order: log routing for
output and error events, the health-flag store, a status publication, a
sleep, the restart enqueue, and the loop exit. -/
inductive OmAct where
  | logged_info
  | logged_warn
  | logged_error
  | marked_unhealthy
  | published (s : BackendStatus)
  | waited (ms : Nat)
  | enqueued_restart
  | loop_exited
  deriving Repr, DecidableEq

/-- Mirrors the loop body of `spawn_output_handler` (lines 110-145 of
the source) over the list of events the stream yields. `sd1` is the
value of the shutdown flag at the check guarding the `Crashed`
publication, `sd2` its value at the re-check after the 2-second grace
sleep (the flag is read only at those two points). Returns the actions
performed, in order, and the events left unconsumed after the loop
breaks. -/
def spawn_output_handler (events : List CommandEvent) (sd1 sd2 : Bool) :
    List OmAct × List CommandEvent :=
  match events with
  | [] => ([], [])
  | e :: rest =>
    match e with
    | .Stdout _ =>
        let r := spawn_output_handler rest sd1 sd2
        (.logged_info :: r.1, r.2)
    | .Stderr _ =>
        let r := spawn_output_handler rest sd1 sd2
        (.logged_warn :: r.1, r.2)
    | .Error _ =>
        let r := spawn_output_handler rest sd1 sd2
        (.logged_error :: r.1, r.2)
    | .Terminated st =>
        ([OmAct.marked_unhealthy] ++
          (if sd1 then []
           else
             [OmAct.published (.Crashed (exitDescription st)), OmAct.waited 2000] ++
               (if sd2 then [] else [OmAct.enqueued_restart])) ++
          [OmAct.loop_exited],
         rest)
    | .Other =>
        spawn_output_handler rest sd1 sd2

/-- Log-routing actions for a list of non-terminal events: stdout at
info level, stderr at warning level, `Error` events at error level. -/
def routeLogs : List CommandEvent → List OmAct
  | [] => []
  | .Stdout _ :: rest => .logged_info :: routeLogs rest
  | .Stderr _ :: rest => .logged_warn :: routeLogs rest
  | .Error _ :: rest => .logged_error :: routeLogs rest
  | .Terminated _ :: rest => routeLogs rest
  | .Other :: rest => routeLogs rest

/-- C5: on the first `Terminated` event of the stream the output handler
(after routing all earlier output and error events to the logs) marks
the health state unhealthy; only if the shutdown flag was unset at that
point does it publish `Crashed` with the exit description and wait the
2-second grace delay, and only if the flag is still unset at the
re-check does it enqueue a restart request; its loop then exits with the
remaining events unconsumed. -/
theorem c5_terminated_handling (pre post : List CommandEvent)
    (st : TerminatedPayload) (sd1 sd2 : Bool)
    (hpre : ∀ e ∈ pre, ∀ s, e ≠ CommandEvent.Terminated s) :
    spawn_output_handler (pre ++ CommandEvent.Terminated st :: post) sd1 sd2 =
      (routeLogs pre ++
        ([OmAct.marked_unhealthy] ++
          (if sd1 then []
           else
             [OmAct.published (.Crashed (exitDescription st)), OmAct.waited 2000] ++
               (if sd2 then [] else [OmAct.enqueued_restart])) ++
          [OmAct.loop_exited]),
       post) := by
  induction pre with
  | nil => simp [spawn_output_handler, routeLogs]
  | cons e rest ih =>
    have hrest : ∀ x ∈ rest, ∀ s, x ≠ CommandEvent.Terminated s :=
      fun x hx s => hpre x (by simp [hx]) s
    cases e with
    | Stdout l => simp [spawn_output_handler, routeLogs, ih hrest]
    | Stderr l => simp [spawn_output_handler, routeLogs, ih hrest]
    | Error m => simp [spawn_output_handler, routeLogs, ih hrest]
    | Terminated s => exact absurd rfl (hpre (CommandEvent.Terminated s) (by simp) s)
    | Other => simp [spawn_output_handler, routeLogs, ih hrest]

/-- C5 witness: a stream with one stdout line, then termination with
exit code 1, then a stray event, processed with the shutdown flag unset
at both checks: the handler logs the line, marks unhealthy, publishes
`Crashed` with the exit description, waits 2 seconds, enqueues a
restart, and exits its loop leaving the stray event unconsumed. -/
theorem c5_terminated_handling_witness :
    spawn_output_handler
      [CommandEvent.Stdout [104, 105],
       CommandEvent.Terminated ⟨some 1, none⟩,
       CommandEvent.Other] false false =
      ([OmAct.logged_info, OmAct.marked_unhealthy,
        OmAct.published (.Crashed (exitDescription ⟨some 1, none⟩)),
        OmAct.waited 2000, OmAct.enqueued_restart, OmAct.loop_exited],
       [CommandEvent.Other]) :=
  c5_terminated_handling [CommandEvent.Stdout [104, 105]] [CommandEvent.Other]
    ⟨some 1, none⟩ false false
    (by intro e he s; fin_cases he; simp)

/-- One consumed restart request in the loop of `spawn_restart_handler`
(lines 229-248 of the source). `sd` is the value of the shutdown flag
read at the top of the iteration; `env` supplies the outcomes of the
relaunch. Returns `none` when the loop exits (shutdown observed),
otherwise the updated state and the events of the iteration: publish
`Restarting`, kill the held handle, wait 500 ms, run
`start_sidecar_sync`, and publish `Crashed` if the relaunch failed. -/
def rcIter (state : AppState) (sd : Bool) (env : LaunchEnv) :
    Option (AppState × List SupEv) :=
  if sd then none
  else
    let k := kill_sidecar state
    let r := start_sidecar_sync k.1 env
    let evs := [SupEv.published .Restarting] ++ k.2 ++ [SupEv.waited 500] ++ r.2.1
    match r.2.2 with
    | .ok _ => some (r.1, evs)
    | .error e => some (r.1, evs ++ [SupEv.published (.Crashed e)])

/-- The restart-handler loop over a list of consumed requests, each with
the shutdown-flag value read for it and its relaunch environment.
Returns the final state, the concatenated events, and whether the loop
exited through the shutdown branch (in which case the remaining
requests are left unprocessed). -/
def rcLoop (state : AppState) : List (Bool × LaunchEnv) → AppState × List SupEv × Bool
  | [] => (state, [], false)
  | (sd, env) :: rest =>
    match rcIter state sd env with
    | none => (state, [], true)
    | some (st', evs) =>
      let r := rcLoop st' rest
      (r.1, evs ++ r.2.1, r.2.2)


/-- Number of `waited ms` sleep events in an event list; used to count
launch attempts per restart iteration (each attempt is preceded by
exactly one 500 ms sleep). -/
def countWaits (ms : Nat) : List SupEv → Nat
  | [] => 0
  | .waited m :: rest => (if m = ms then 1 else 0) + countWaits ms rest
  | _ :: rest => countWaits ms rest

/-- Helper: `countWaits` distributes over list append. -/
theorem countWaits_append (ms : Nat) (l1 l2 : List SupEv) :
    countWaits ms (l1 ++ l2) = countWaits ms l1 + countWaits ms l2 := by
  induction l1 with
  | nil => simp [countWaits]
  | cons e rest ih =>
    cases e <;> simp [countWaits, ih] <;> omega

/-- Helper: the events emitted by the launch sequence itself contain no
sleeps (only `Starting` and the spawn record). -/
theorem start_sidecar_sync_no_waits (st : AppState) (env : LaunchEnv) (ms : Nat) :
    countWaits ms (start_sidecar_sync st env).2.1 = 0 := by
  cases ha : env.alloc with
  | none => simp [start_sidecar_sync, ha, countWaits]
  | some p =>
    cases hc : env.cmd with
    | error e => simp [start_sidecar_sync, ha, hc, countWaits]
    | ok u =>
      cases hsp : env.spawn with
      | error e => simp [start_sidecar_sync, ha, hc, hsp, countWaits]
      | ok child => simp [start_sidecar_sync, ha, hc, hsp, countWaits]

/-- Helper: the kill step emits no sleeps. -/
theorem kill_sidecar_no_waits (state : AppState) (ms : Nat) :
    countWaits ms (kill_sidecar state).2 = 0 := by
  cases hs : state.sidecar <;> simp [kill_sidecar, hs, countWaits]

/-- C6: for every restart request consumed by the restart handler: if
the shutdown flag is set it exits its loop, leaving later requests
unconsumed; otherwise the iteration publishes `Restarting`, kills the
held handle (a no-op when the slot is empty), waits 500 ms, invokes the
launch sequence exactly once (a single 500 ms sleep per iteration, no
self-scheduled retry), publishes `Crashed` with the error when the
launch fails, and the loop stays alive to process the next request. -/
theorem c6_restart_iteration (state : AppState) (env : LaunchEnv)
    (rest : List (Bool × LaunchEnv)) :
    rcIter state true env = none ∧
    rcLoop state ((true, env) :: rest) = (state, [], true) ∧
    (kill_sidecar state).1.sidecar = none ∧
    ((kill_sidecar state).2 = match state.sidecar with
      | some child => [SupEv.killed child]
      | none => []) ∧
    (rcIter state false env =
      some ((start_sidecar_sync (kill_sidecar state).1 env).1,
        [SupEv.published .Restarting] ++ (kill_sidecar state).2 ++
          [SupEv.waited 500] ++ (start_sidecar_sync (kill_sidecar state).1 env).2.1 ++
          (match (start_sidecar_sync (kill_sidecar state).1 env).2.2 with
           | .ok _ => []
           | .error e => [SupEv.published (.Crashed e)]))) ∧
    (∀ st' evs, rcIter state false env = some (st', evs) →
      countWaits 500 evs = 1 ∧
      rcLoop state ((false, env) :: rest) =
        ((rcLoop st' rest).1, evs ++ (rcLoop st' rest).2.1, (rcLoop st' rest).2.2)) := by
  refine ⟨rfl, rfl, ?_, ?_, ?_, ?_⟩
  · cases hs : state.sidecar <;> simp [kill_sidecar, hs]
  · cases hs : state.sidecar <;> simp [kill_sidecar, hs]
  · rw [rcIter]
    simp only [Bool.false_eq_true, if_false]
    cases hr : (start_sidecar_sync (kill_sidecar state).1 env).2.2 with
    | ok u => simp [hr]
    | error e => simp [hr]
  · intro st' evs hiter
    constructor
    · rw [rcIter] at hiter
      simp only [Bool.false_eq_true, if_false] at hiter
      cases hr : (start_sidecar_sync (kill_sidecar state).1 env).2.2 with
      | ok u =>
        rw [hr] at hiter
        simp only [Option.some.injEq, Prod.mk.injEq] at hiter
        rw [← hiter.2]
        simp [countWaits_append, countWaits, kill_sidecar_no_waits,
          start_sidecar_sync_no_waits]
      | error e =>
        rw [hr] at hiter
        simp only [Option.some.injEq, Prod.mk.injEq] at hiter
        rw [← hiter.2]
        simp [countWaits_append, countWaits, kill_sidecar_no_waits,
          start_sidecar_sync_no_waits]
    · rw [rcLoop]
      simp only [hiter]

/-- Concrete state for the C6 witness: a held handle 3, healthy, not
shutting down. -/
def c6wState : AppState :=
  { sidecar := some 3, port := 8765, is_healthy := true, shutdown := false }

/-- Concrete relaunch environment for the C6 witness: allocation
succeeds on 8765, the spawn fails. -/
def c6wEnv : LaunchEnv :=
  { alloc := some 8765, cmd := .ok (), spawn := .error "boom" }

/-- C6 witness: consuming one request with the shutdown flag unset, a
held handle 3 and a failing relaunch performs, in order, `Restarting`,
the kill of handle 3, the 500 ms sleep, `Starting`, and `Crashed` with
the spawn error, with a single sleep (one launch attempt) and the loop
still alive. -/
theorem c6_restart_iteration_witness :
    countWaits 500 [SupEv.published .Restarting, SupEv.killed 3, SupEv.waited 500,
        SupEv.published .Starting,
        SupEv.published (.Crashed "Failed to spawn sidecar: boom")] = 1 ∧
    rcLoop c6wState [(false, c6wEnv)] =
      ({ sidecar := none, port := 8765, is_healthy := true, shutdown := false },
       [SupEv.published .Restarting, SupEv.killed 3, SupEv.waited 500,
        SupEv.published .Starting,
        SupEv.published (.Crashed "Failed to spawn sidecar: boom")], false) :=
  (c6_restart_iteration c6wState c6wEnv []).2.2.2.2.2
    { sidecar := none, port := 8765, is_healthy := true, shutdown := false }
    [SupEv.published .Restarting, SupEv.killed 3, SupEv.waited 500,
     SupEv.published .Starting,
     SupEv.published (.Crashed "Failed to spawn sidecar: boom")]
    (by decide)

/-- Program counter of a health-checker task, one position per
suspension point of its loop: at the top-of-loop shutdown check, with a
probe in flight (between the top check and the publication of its
outcome), in the 5-second interval sleep, or exited. -/
inductive HcPc where
  | hcTop
  | hcChecking
  | hcSleep
  | hcDone
  deriving Repr, DecidableEq

/-- Program counter of the output-handler task: blocked on the next
process event, in the 2-second grace sleep after publishing `Crashed`,
or exited. -/
inductive OmPc where
  | omRecv
  | omWait
  | omDone
  deriving Repr, DecidableEq

/-- Program counter of the restart-handler task: blocked on the restart
channel, in the 500 ms sleep before the relaunch (the relaunch itself is
the step out of this position), or exited. -/
inductive RcPc where
  | rcRecv
  | rcSleep
  | rcDone
  deriving Repr, DecidableEq

/-- Configuration of the supervisor: the shared atomics and the handle
slot of `AppState`, the occupancy of the capacity-1 restart channel, the
health checker's local failure counter, one representative task of each
supervisory loop with its program counter, and the event log. -/
structure Config where
  shutdown : Bool
  is_healthy : Bool
  fails : Nat
  port : Nat
  slot : Option Nat
  chan : Bool
  hc : HcPc
  om : OmPc
  rc : RcPc
  log : List SupEv
  deriving Repr, DecidableEq

/-- The non-blocking `try_send` on the capacity-1 restart channel
(`mpsc::channel::<()>(1)` with `tx.try_send(())`): when the single
buffer slot is occupied the request is dropped, otherwise it is
buffered. -/
def trySend (c : Config) : Config :=
  if c.chan then { c with log := c.log ++ [SupEv.sendDropped] }
  else { c with chan := true, log := c.log ++ [SupEv.sendAccepted] }

/-- The `kill_sidecar` effect on a configuration: take the handle out of
the slot and kill it; a no-op when the slot is empty. -/
def killSlot (c : Config) : Config :=
  match c.slot with
  | some h => { c with slot := none, log := c.log ++ [SupEv.killed h] }
  | none => c

/-- One scheduling action: the `restart_backend` UI command, the
window-close handler (store of the shutdown flag followed by
`kill_sidecar`), or one step of a supervisory task between suspension
points, with the nondeterministic input it consumes (probe outcome,
process event, relaunch environment). -/
inductive Act where
  | uiRestart
  | closeWindow
  | hcMove (res : Bool)
  | omMove (ev : CommandEvent)
  | rcMove (env : LaunchEnv)

/-- Small-step semantics of the supervisor. Each step is the code
executed between two suspension points of one task (or one synchronous
external handler), which is the granularity at which the concurrent
tasks of the source interleave. `none` means the task cannot move
(exited, or blocked on an empty channel). -/
def stepSup (c : Config) : Act → Option Config
  | .uiRestart => some (trySend c)
  | .closeWindow =>
      some (killSlot { c with shutdown := true, log := c.log ++ [SupEv.shutdownSet] })
  | .hcMove res =>
    match c.hc with
    | .hcTop =>
        if c.shutdown then some { c with hc := .hcDone }
        else some { c with hc := .hcChecking }
    | .hcChecking =>
        let r := hcCheckStep ⟨c.fails, c.is_healthy⟩ res
        some { c with fails := r.1.consecutive_failures,
                      is_healthy := r.1.is_healthy,
                      hc := .hcSleep,
                      log := c.log ++ (r.2.map SupEv.published).toList }
    | .hcSleep => some { c with hc := .hcTop, log := c.log ++ [SupEv.waited 5000] }
    | .hcDone => none
  | .omMove ev =>
    match c.om with
    | .omRecv =>
      match ev with
      | .Terminated st =>
          let c1 := { c with is_healthy := false }
          if c1.shutdown then some { c1 with om := .omDone }
          else
            some { c1 with om := .omWait,
                           log := c1.log ++ [SupEv.published (.Crashed (exitDescription st))] }
      | _ => some c
    | .omWait =>
      let c1 := { c with log := c.log ++ [SupEv.waited 2000] }
      if c1.shutdown then some { c1 with om := .omDone }
      else some { (trySend c1) with om := .omDone }
    | .omDone => none
  | .rcMove env =>
    match c.rc with
    | .rcRecv =>
      if c.chan then
        let c0 := { c with chan := false }
        if c0.shutdown then some { c0 with rc := .rcDone }
        else
          let c1 := killSlot { c0 with log := c0.log ++ [SupEv.published .Restarting] }
          some { c1 with rc := .rcSleep }
      else none
    | .rcSleep =>
      let stV : AppState := { sidecar := c.slot, port := c.port,
                              is_healthy := c.is_healthy, shutdown := c.shutdown }
      let r := start_sidecar_sync stV env
      let errEvs : List SupEv :=
        match r.2.2 with
        | .ok _ => []
        | .error e => [SupEv.published (.Crashed e)]
      some { c with port := r.1.port,
                    slot := r.1.sidecar,
                    is_healthy := r.1.is_healthy,
                    rc := .rcRecv,
                    log := c.log ++ [SupEv.waited 500] ++ r.2.1 ++ errEvs }
    | .rcDone => none

/-- Run of the supervisor machine over a list of scheduling actions. -/
def runSup (c : Config) : List Act → Option Config
  | [] => some c
  | a :: rest =>
    match stepSup c a with
    | none => none
    | some c' => runSup c' rest

/-- Configuration right after a successful `setup`: the initial launch
has allocated port 8765, published `Starting` and stored handle 0; the
channel is empty and every task sits at the start of its loop. -/
def initConfig : Config :=
  { shutdown := false, is_healthy := false, fails := 0, port := 8765,
    slot := some 0, chan := false, hc := .hcTop, om := .omRecv, rc := .rcRecv,
    log := [SupEv.published .Starting, SupEv.spawned none 0] }

/-- Holds when no status publication and no process spawn appears in the
log after the shutdown flag was stored. -/
def noPubSpawnAfterShutdown : List SupEv → Bool
  | [] => true
  | .shutdownSet :: rest =>
      rest.all fun e =>
        match e with
        | .published _ => false
        | .spawned _ _ => false
        | _ => true
  | _ :: rest => noPubSpawnAfterShutdown rest

/-- Number of status publications and process spawns in a log. -/
def pubSpawnCount : List SupEv → Nat
  | [] => 0
  | .published _ :: rest => 1 + pubSpawnCount rest
  | .spawned _ _ :: rest => 1 + pubSpawnCount rest
  | _ :: rest => pubSpawnCount rest

/-- Helper: `pubSpawnCount` distributes over append. -/
theorem pubSpawnCount_append (l1 l2 : List SupEv) :
    pubSpawnCount (l1 ++ l2) = pubSpawnCount l1 + pubSpawnCount l2 := by
  induction l1 with
  | nil => simp [pubSpawnCount]
  | cons e rest ih =>
    cases e <;> simp [pubSpawnCount, ih] <;> omega

/-- A successful relaunch environment used by the concrete traces:
allocation returns the default port, the spawn yields handle 1. -/
def envOk : LaunchEnv := { alloc := some 8765, cmd := .ok (), spawn := .ok 1 }

/-- Scheduling for the C3 counterexample: a restart request is consumed
(publishing `Restarting`, killing handle 0, entering the 500 ms sleep),
the window closes during that sleep (shutdown flag set, slot already
empty), and then the sleeping restart iteration resumes and relaunches. -/
def c3Acts : List Act :=
  [Act.uiRestart, Act.rcMove envOk, Act.closeWindow, Act.rcMove envOk]

/-- C3 counterexample: in the run scheduled by `c3Acts` the shutdown
flag is set while the restart handler is inside its 500 ms sleep, after
its only shutdown check for that iteration; the iteration then still
publishes `Starting` and spawns a new process, so a `BackendStatus` is
published and a process is spawned after the shutdown flag was set —
refuting the claim that no further status is published and no new
process is spawned once the flag is set. -/
theorem c3_counterexample :
    (runSup initConfig c3Acts).map (fun c => c.log) =
      some [SupEv.published .Starting, SupEv.spawned none 0,
            SupEv.sendAccepted, SupEv.published .Restarting, SupEv.killed 0,
            SupEv.shutdownSet, SupEv.waited 500,
            SupEv.published .Starting, SupEv.spawned none 1] ∧
    (runSup initConfig c3Acts).map (fun c => noPubSpawnAfterShutdown c.log) =
      some false := by
  constructor <;> rfl

/-- Helper: the log grows by append at every step of the supervisor
machine, and when the shutdown flag is set, every task outside an
in-flight probe (`hcChecking`) or an in-flight restart (`rcSleep`)
neither publishes nor spawns, keeps the flag set, and never enters
those two in-flight positions. -/
theorem stepSup_shutdown_quiet (c : Config) (a : Act) (c' : Config)
    (h : stepSup c a = some c')
    (hsd : c.shutdown = true) (hhc : c.hc ≠ HcPc.hcChecking)
    (hrc : c.rc ≠ RcPc.rcSleep) :
    pubSpawnCount c'.log = pubSpawnCount c.log ∧ c'.shutdown = true ∧
    c'.hc ≠ HcPc.hcChecking ∧ c'.rc ≠ RcPc.rcSleep := by
  cases a with
  | uiRestart =>
    simp only [stepSup, Option.some.injEq] at h
    subst h
    by_cases hch : c.chan = true <;>
      simp [trySend, hch, pubSpawnCount_append, pubSpawnCount, hsd, hhc, hrc]
  | closeWindow =>
    simp only [stepSup, Option.some.injEq] at h
    subst h
    cases hs : c.slot with
    | none => simp [killSlot, hs, pubSpawnCount_append, pubSpawnCount, hhc, hrc]
    | some k => simp [killSlot, hs, pubSpawnCount_append, pubSpawnCount, hhc, hrc]
  | hcMove res =>
    cases hpc : c.hc with
    | hcTop =>
      simp only [stepSup, hpc, hsd, if_true, Option.some.injEq] at h
      subst h
      simp [hsd, hrc]
    | hcChecking => exact absurd hpc hhc
    | hcSleep =>
      simp only [stepSup, hpc, Option.some.injEq] at h
      subst h
      simp [pubSpawnCount_append, pubSpawnCount, hsd, hrc]
    | hcDone =>
      simp only [stepSup, hpc] at h
      exact Option.noConfusion h
  | omMove ev =>
    cases hpc : c.om with
    | omRecv =>
      cases ev with
      | Terminated st =>
        simp only [stepSup, hpc, hsd, if_true, Option.some.injEq] at h
        subst h
        simp [hsd, hhc, hrc]
      | Stdout l =>
        simp only [stepSup, hpc, Option.some.injEq] at h
        subst h
        exact ⟨rfl, hsd, hhc, hrc⟩
      | Stderr l =>
        simp only [stepSup, hpc, Option.some.injEq] at h
        subst h
        exact ⟨rfl, hsd, hhc, hrc⟩
      | Error m =>
        simp only [stepSup, hpc, Option.some.injEq] at h
        subst h
        exact ⟨rfl, hsd, hhc, hrc⟩
      | Other =>
        simp only [stepSup, hpc, Option.some.injEq] at h
        subst h
        exact ⟨rfl, hsd, hhc, hrc⟩
    | omWait =>
      simp only [stepSup, hpc, hsd, if_true, Option.some.injEq] at h
      subst h
      simp [pubSpawnCount_append, pubSpawnCount, hsd, hhc, hrc]
    | omDone =>
      simp only [stepSup, hpc] at h
      exact Option.noConfusion h
  | rcMove env =>
    cases hpc : c.rc with
    | rcRecv =>
      by_cases hch : c.chan = true
      · simp only [stepSup, hpc, hch, if_true, hsd, Option.some.injEq] at h
        subst h
        simp [hsd, hhc]
      · have hch' : c.chan = false := by simpa using hch
        simp only [stepSup, hpc, hch', Bool.false_eq_true, if_false] at h
        exact Option.noConfusion h
    | rcSleep => exact absurd hpc hrc
    | rcDone =>
      simp only [stepSup, hpc] at h
      exact Option.noConfusion h

/-- C3 (amended): once the shutdown flag is set, no supervisory loop
begins a new iteration — each exits at its next shutdown check — so if,
when the flag is set, the health checker is not inside an in-flight
probe and the restart handler is not inside an in-flight restart (its
500 ms pre-relaunch sleep), then no further `BackendStatus` is
published and no new process is spawned for the rest of the run,
regardless of pending restart signals. Only an iteration already past
its shutdown check when the flag was set can still publish or spawn. -/
theorem c3_no_publish_or_spawn_after_shutdown (acts : List Act) :
    ∀ c c' : Config, runSup c acts = some c' →
      c.shutdown = true → c.hc ≠ HcPc.hcChecking → c.rc ≠ RcPc.rcSleep →
      pubSpawnCount c'.log = pubSpawnCount c.log := by
  induction acts with
  | nil =>
    intro c c' hrun _ _ _
    simp only [runSup, Option.some.injEq] at hrun
    rw [← hrun]
  | cons a rest ih =>
    intro c c' hrun hsd hhc hrc
    rw [runSup] at hrun
    cases hstep : stepSup c a with
    | none => rw [hstep] at hrun; exact Option.noConfusion hrun
    | some c1 =>
      rw [hstep] at hrun
      obtain ⟨h1, h2, h3, h4⟩ := stepSup_shutdown_quiet c a c1 hstep hsd hhc hrc
      rw [ih c1 c' hrun h2 h3 h4, h1]

/-- C3 witness: from the post-setup configuration with the shutdown
flag already set (all tasks at their loop boundaries), running one
health-checker step — which observes the flag and exits — followed by
the close handler leaves the number of published statuses and spawns
unchanged. -/
theorem c3_no_publish_or_spawn_after_shutdown_witness :
    pubSpawnCount ((runSup { initConfig with shutdown := true }
        [Act.hcMove true, Act.closeWindow]).getD initConfig).log =
      pubSpawnCount ({ initConfig with shutdown := true } : Config).log := by
  have h := c3_no_publish_or_spawn_after_shutdown [Act.hcMove true, Act.closeWindow]
    { initConfig with shutdown := true }
    ((runSup { initConfig with shutdown := true }
        [Act.hcMove true, Act.closeWindow]).getD initConfig)
    (by decide) rfl (by decide) (by decide)
  exact h

/-- Prefix of the C4 trace: a first restart request is sent and then
consumed, leaving the restart handler actively executing a restart
(inside its pre-relaunch sleep) with the channel buffer empty. -/
def c4Pre : List Act := [Act.uiRestart, Act.rcMove envOk]

/-- Full C4 trace: while the restart is actively executing a second
request arrives, the active restart completes, and the handler then
consumes the second request. -/
def c4Acts : List Act :=
  c4Pre ++ [Act.uiRestart, Act.rcMove envOk, Act.rcMove envOk]

/-- C4 counterexample: after `c4Pre` the restart handler is actively
executing a restart and the capacity-1 buffer is empty (its `recv`
removed the request), so a second request arriving at that moment is
accepted into the buffer — not dropped — and is consumed for a second
restart cycle once the first completes: the full run publishes
`Restarting` twice and drops no send. This refutes the claim that a
request arriving while a restart is actively executing is dropped
rather than queued for later consumption. -/
theorem c4_counterexample :
    (runSup initConfig c4Pre).map (fun c => (c.rc, c.chan)) =
      some (RcPc.rcSleep, false) ∧
    (runSup initConfig (c4Pre ++ [Act.uiRestart])).map (fun c => (c.rc, c.chan)) =
      some (RcPc.rcSleep, true) ∧
    (runSup initConfig c4Acts).map
      (fun c => (c.log.count (SupEv.published .Restarting),
                 c.log.count SupEv.sendDropped)) = some (2, 0) := by
  refine ⟨rfl, rfl, rfl⟩

/-- C4 (amended): restart requests go through the capacity-1
non-blocking channel: a `try_send` while the single buffer slot is
occupied by a pending (not yet consumed) request is dropped, absorbing
the duplicate; a `try_send` while the buffer is empty is accepted and
buffered for the next `recv` — in particular a request arriving while a
restart is actively executing (after `recv` emptied the buffer) is
queued for a later restart cycle, not dropped. -/
theorem c4_try_send_drops_iff_buffer_full (c : Config) :
    stepSup c Act.uiRestart =
      some (if c.chan then { c with log := c.log ++ [SupEv.sendDropped] }
            else { c with chan := true, log := c.log ++ [SupEv.sendAccepted] }) := by
  simp only [stepSup, trySend]

/-- Holds when every spawn recorded in the log stored its new handle
into an empty slot (no spawn ever overwrote a live handle). -/
def spawnedCleanB : List SupEv → Bool
  | [] => true
  | .spawned prev _ :: rest => prev.isNone && spawnedCleanB rest
  | _ :: rest => spawnedCleanB rest

/-- Helper: `spawnedCleanB` distributes over append. -/
theorem spawnedCleanB_append (l1 l2 : List SupEv) :
    spawnedCleanB (l1 ++ l2) = (spawnedCleanB l1 && spawnedCleanB l2) := by
  induction l1 with
  | nil => simp [spawnedCleanB]
  | cons e rest ih =>
    cases e <;> simp [spawnedCleanB, ih, Bool.and_assoc]

/-- Helper: a launch from a state with an empty handle slot records its
spawn (if any) with an empty previous slot. -/
theorem start_sidecar_sync_spawnedClean (st : AppState) (env : LaunchEnv)
    (h : st.sidecar = none) :
    spawnedCleanB (start_sidecar_sync st env).2.1 = true := by
  cases ha : env.alloc with
  | none => simp [start_sidecar_sync, ha, spawnedCleanB]
  | some p =>
    cases hc : env.cmd with
    | error e => simp [start_sidecar_sync, ha, hc, spawnedCleanB]
    | ok u =>
      cases hsp : env.spawn with
      | error e => simp [start_sidecar_sync, ha, hc, hsp, spawnedCleanB]
      | ok child => simp [start_sidecar_sync, ha, hc, hsp, spawnedCleanB, h]

/-- Helper: one supervisor step preserves the handle-slot invariant:
whenever the restart handler is inside its pre-relaunch sleep the slot
is empty (its `recv` step killed and cleared the slot), and every spawn
in the log stored into an empty slot. -/
theorem stepSup_preserves_slotInv (c : Config) (a : Act) (c' : Config)
    (h : stepSup c a = some c')
    (h1 : c.rc = RcPc.rcSleep → c.slot = none)
    (h2 : spawnedCleanB c.log = true) :
    (c'.rc = RcPc.rcSleep → c'.slot = none) ∧ spawnedCleanB c'.log = true := by
  cases a with
  | uiRestart =>
    simp only [stepSup, Option.some.injEq] at h
    subst h
    by_cases hch : c.chan = true <;>
      (simp [trySend, hch, spawnedCleanB_append, spawnedCleanB, h2]; try exact h1)
  | closeWindow =>
    simp only [stepSup, Option.some.injEq] at h
    subst h
    cases hs : c.slot with
    | none => (simp [killSlot, hs, spawnedCleanB_append, spawnedCleanB, h2]; try exact h1)
    | some k => simp [killSlot, hs, spawnedCleanB_append, spawnedCleanB, h2]
  | hcMove res =>
    cases hpc : c.hc with
    | hcTop =>
      by_cases hsd : c.shutdown = true
      · simp only [stepSup, hpc, hsd, if_true, Option.some.injEq] at h
        subst h
        exact ⟨h1, h2⟩
      · have hsd' : c.shutdown = false := by simpa using hsd
        simp only [stepSup, hpc, hsd', Bool.false_eq_true, if_false,
          Option.some.injEq] at h
        subst h
        exact ⟨h1, h2⟩
    | hcChecking =>
      simp only [stepSup, hpc, Option.some.injEq] at h
      subst h
      cases hr : (hcCheckStep ⟨c.fails, c.is_healthy⟩ res).2 with
      | none => (simp [hr, spawnedCleanB_append, spawnedCleanB, h2]; try exact h1)
      | some s => (simp [hr, spawnedCleanB_append, spawnedCleanB, h2]; try exact h1)
    | hcSleep =>
      simp only [stepSup, hpc, Option.some.injEq] at h
      subst h
      (simp [spawnedCleanB_append, spawnedCleanB, h2]; try exact h1)
    | hcDone =>
      simp only [stepSup, hpc] at h
      exact Option.noConfusion h
  | omMove ev =>
    cases hpc : c.om with
    | omRecv =>
      cases ev with
      | Terminated st =>
        by_cases hsd : c.shutdown = true
        · simp only [stepSup, hpc, hsd, if_true, Option.some.injEq] at h
          subst h
          exact ⟨h1, h2⟩
        · have hsd' : c.shutdown = false := by simpa using hsd
          simp only [stepSup, hpc, hsd', Bool.false_eq_true, if_false,
            Option.some.injEq] at h
          subst h
          (simp [spawnedCleanB_append, spawnedCleanB, h2]; try exact h1)
      | Stdout l =>
        simp only [stepSup, hpc, Option.some.injEq] at h
        subst h; exact ⟨h1, h2⟩
      | Stderr l =>
        simp only [stepSup, hpc, Option.some.injEq] at h
        subst h; exact ⟨h1, h2⟩
      | Error m =>
        simp only [stepSup, hpc, Option.some.injEq] at h
        subst h; exact ⟨h1, h2⟩
      | Other =>
        simp only [stepSup, hpc, Option.some.injEq] at h
        subst h; exact ⟨h1, h2⟩
    | omWait =>
      by_cases hsd : c.shutdown = true
      · simp only [stepSup, hpc, hsd, if_true, Option.some.injEq] at h
        subst h
        (simp [spawnedCleanB_append, spawnedCleanB, h2]; try exact h1)
      · have hsd' : c.shutdown = false := by simpa using hsd
        simp only [stepSup, hpc, hsd', Bool.false_eq_true, if_false,
          Option.some.injEq] at h
        subst h
        by_cases hch : c.chan = true <;>
          (simp [trySend, hch, spawnedCleanB_append, spawnedCleanB, h2]; try exact h1)
    | omDone =>
      simp only [stepSup, hpc] at h
      exact Option.noConfusion h
  | rcMove env =>
    cases hpc : c.rc with
    | rcRecv =>
      by_cases hch : c.chan = true
      · by_cases hsd : c.shutdown = true
        · simp only [stepSup, hpc, hch, hsd, if_true, Option.some.injEq] at h
          subst h
          simp [h2]
        · have hsd' : c.shutdown = false := by simpa using hsd
          simp only [stepSup, hpc, hch, hsd', Bool.false_eq_true, if_false,
            if_true, Option.some.injEq] at h
          subst h
          cases hs : c.slot with
          | none => simp [killSlot, hs, spawnedCleanB_append, spawnedCleanB, h2]
          | some k => simp [killSlot, hs, spawnedCleanB_append, spawnedCleanB, h2]
      · have hch' : c.chan = false := by simpa using hch
        simp only [stepSup, hpc, hch', Bool.false_eq_true, if_false] at h
        exact Option.noConfusion h
    | rcSleep =>
      have hslot : c.slot = none := h1 hpc
      simp only [stepSup, hpc, Option.some.injEq] at h
      subst h
      constructor
      · intro hcontr
        exact absurd hcontr (by simp)
      · have hclean := start_sidecar_sync_spawnedClean
          { sidecar := c.slot, port := c.port,
            is_healthy := c.is_healthy, shutdown := c.shutdown } env hslot
        cases hr : (start_sidecar_sync
            { sidecar := c.slot, port := c.port,
              is_healthy := c.is_healthy, shutdown := c.shutdown } env).2.2 with
        | ok u =>
          simp [hr, spawnedCleanB_append, spawnedCleanB, h2, hclean]
        | error e =>
          simp [hr, spawnedCleanB_append, spawnedCleanB, h2, hclean]
    | rcDone =>
      simp only [stepSup, hpc] at h
      exact Option.noConfusion h

/-- Helper: the handle-slot invariant is preserved by whole runs of the
supervisor machine. -/
theorem runSup_slotInv (acts : List Act) :
    ∀ c c' : Config, runSup c acts = some c' →
      (c.rc = RcPc.rcSleep → c.slot = none) → spawnedCleanB c.log = true →
      ((c'.rc = RcPc.rcSleep → c'.slot = none) ∧ spawnedCleanB c'.log = true) := by
  induction acts with
  | nil =>
    intro c c' hrun h1 h2
    simp only [runSup, Option.some.injEq] at hrun
    subst hrun
    exact ⟨h1, h2⟩
  | cons a rest ih =>
    intro c c' hrun h1 h2
    rw [runSup] at hrun
    cases hstep : stepSup c a with
    | none => rw [hstep] at hrun; exact Option.noConfusion hrun
    | some c1 =>
      rw [hstep] at hrun
      obtain ⟨g1, g2⟩ := stepSup_preserves_slotInv c a c1 hstep h1 h2
      exact ih c1 c' hrun g1 g2

/-- C8: in every configuration reachable from the post-setup state, the
handle slot (an `Option`, hence at most one handle) is empty whenever
the restart handler is between its kill and its relaunch, every spawn
recorded so far stored its handle into an empty slot — no spawn ever
overwrote a live handle — and any step that removes a held handle from
the slot appends a kill of exactly that handle to the log: replacing the
slot's content always kills the previous process first. -/
theorem c8_at_most_one_live_handle (acts : List Act) (c : Config)
    (hrun : runSup initConfig acts = some c) :
    (c.rc = RcPc.rcSleep → c.slot = none) ∧
    spawnedCleanB c.log = true ∧
    (∀ (a : Act) (c' : Config) (k : Nat), stepSup c a = some c' →
      c.slot = some k → c'.slot ≠ some k →
      ∃ tail, c'.log = c.log ++ tail ∧ SupEv.killed k ∈ tail) := by
  obtain ⟨h1, h2⟩ := runSup_slotInv acts initConfig c hrun (by decide) (by decide)
  refine ⟨h1, h2, ?_⟩
  intro a c' k hstep hslot hne
  cases a with
  | uiRestart =>
    simp only [stepSup, Option.some.injEq] at hstep
    subst hstep
    exact absurd (by by_cases hch : c.chan = true <;> simp [trySend, hch, hslot]) hne
  | closeWindow =>
    simp only [stepSup, Option.some.injEq] at hstep
    subst hstep
    refine ⟨[SupEv.shutdownSet, SupEv.killed k], ?_, by simp⟩
    simp [killSlot, hslot]
  | hcMove res =>
    cases hpc : c.hc with
    | hcTop =>
      by_cases hsd : c.shutdown = true
      · simp only [stepSup, hpc, hsd, if_true, Option.some.injEq] at hstep
        subst hstep
        exact absurd hslot hne
      · have hsd' : c.shutdown = false := by simpa using hsd
        simp only [stepSup, hpc, hsd', Bool.false_eq_true, if_false,
          Option.some.injEq] at hstep
        subst hstep
        exact absurd hslot hne
    | hcChecking =>
      simp only [stepSup, hpc, Option.some.injEq] at hstep
      subst hstep
      exact absurd hslot hne
    | hcSleep =>
      simp only [stepSup, hpc, Option.some.injEq] at hstep
      subst hstep
      exact absurd hslot hne
    | hcDone =>
      simp only [stepSup, hpc] at hstep
      exact Option.noConfusion hstep
  | omMove ev =>
    cases hpc : c.om with
    | omRecv =>
      cases ev with
      | Terminated st =>
        by_cases hsd : c.shutdown = true
        · simp only [stepSup, hpc, hsd, if_true, Option.some.injEq] at hstep
          subst hstep
          exact absurd hslot hne
        · have hsd' : c.shutdown = false := by simpa using hsd
          simp only [stepSup, hpc, hsd', Bool.false_eq_true, if_false,
            Option.some.injEq] at hstep
          subst hstep
          exact absurd hslot hne
      | Stdout l =>
        simp only [stepSup, hpc, Option.some.injEq] at hstep
        subst hstep; exact absurd hslot hne
      | Stderr l =>
        simp only [stepSup, hpc, Option.some.injEq] at hstep
        subst hstep; exact absurd hslot hne
      | Error m =>
        simp only [stepSup, hpc, Option.some.injEq] at hstep
        subst hstep; exact absurd hslot hne
      | Other =>
        simp only [stepSup, hpc, Option.some.injEq] at hstep
        subst hstep; exact absurd hslot hne
    | omWait =>
      by_cases hsd : c.shutdown = true
      · simp only [stepSup, hpc, hsd, if_true, Option.some.injEq] at hstep
        subst hstep
        exact absurd hslot hne
      · have hsd' : c.shutdown = false := by simpa using hsd
        simp only [stepSup, hpc, hsd', Bool.false_eq_true, if_false,
          Option.some.injEq] at hstep
        subst hstep
        exact absurd (by by_cases hch : c.chan = true <;> simp [trySend, hch, hslot]) hne
    | omDone =>
      simp only [stepSup, hpc] at hstep
      exact Option.noConfusion hstep
  | rcMove env =>
    cases hpc : c.rc with
    | rcRecv =>
      by_cases hch : c.chan = true
      · by_cases hsd : c.shutdown = true
        · simp only [stepSup, hpc, hch, hsd, if_true, Option.some.injEq] at hstep
          subst hstep
          exact absurd hslot hne
        · have hsd' : c.shutdown = false := by simpa using hsd
          simp only [stepSup, hpc, hch, hsd', Bool.false_eq_true, if_false,
            if_true, Option.some.injEq] at hstep
          subst hstep
          refine ⟨[SupEv.published .Restarting, SupEv.killed k], ?_, by simp⟩
          simp [killSlot, hslot]
      · have hch' : c.chan = false := by simpa using hch
        simp only [stepSup, hpc, hch', Bool.false_eq_true, if_false] at hstep
        exact Option.noConfusion hstep
    | rcSleep => exact absurd hslot (by rw [h1 hpc]; exact fun hcontr => Option.noConfusion hcontr)
    | rcDone =>
      simp only [stepSup, hpc] at hstep
      exact Option.noConfusion hstep

/-- C8 witness: the post-setup configuration (reached by the empty run)
satisfies the spawn-record invariant, and the close-handler step — which
removes handle 0 from the slot — appends the kill of handle 0 to the
log. -/
theorem c8_at_most_one_live_handle_witness :
    spawnedCleanB initConfig.log = true ∧
    (∃ tail, ((stepSup initConfig Act.closeWindow).getD initConfig).log =
        initConfig.log ++ tail ∧ SupEv.killed 0 ∈ tail) :=
  ⟨(c8_at_most_one_live_handle [] initConfig rfl).2.1,
   (c8_at_most_one_live_handle [] initConfig rfl).2.2 Act.closeWindow
     ((stepSup initConfig Act.closeWindow).getD initConfig) 0 rfl rfl (by decide)⟩
